import Mathlib

/-!
Beanzero budget engine — verification of the specification claims.

Shallow embedding of the beanzero budget ledger engine
(src/beanzero/budget/{spec,core,store,budget}.py).  Monetary amounts are
beancount `amt.Amount` values carrying an exact `Decimal`; the engine only
ever adds, subtracts, negates and compares amounts of the single budget
currency (it never multiplies, divides or rounds them), so an amount is
embedded as an exact scaled integer (`Int`, e.g. in cents) and the currency
tag is dropped — addition, subtraction and order on fixed-point decimals
are exactly those of the scaled integers.  Python dictionaries
keyed by category are embedded as a fixed key list together with a total
value function (zero outside the written keys, matching the defaultdict /
CategoryMap zero default).  Fallible Python code (raising ValueError /
KeyError) is embedded with `Option` / `Except`.

The `CategoryMap` class and the methods `BudgetSpec.category_map` and
`Month.as_iso` are imported and tested by the sources in this snapshot
(core.py, store.py, test_spec.py) but their definitions are absent from
src/beanzero/budget/spec.py; they are modelled from the specification where
noted below.
-/

namespace Beanzero

/-- An exact decimal amount of the budget currency (beancount `amt.Amount`
restricted to the single spec currency), as a scaled integer. -/
abbrev Amount := Int

/-- A slugified category key (spec.py `CategoryKey = str`). -/
abbrev CategoryKey := String

/-- A beancount account name. -/
abbrev Account := String

/-- Errors raised by the engine (Python `ValueError` / `KeyError` /
`AssertionError` conditions, named as in the specification §7). -/
inductive BudgetError where
  /-- "Null posting" (core.py from_beancount_tx): budget- or
  category-relevant posting with `units is None`. -/
  | nullPosting
  /-- "Account {cat} cannot be budget account and budget category". -/
  | budgetCategoryConflict (key : CategoryKey)
  /-- "Negative funding for transaction". -/
  | negativeFunding
  /-- "Account fits in multiple categories" (spec.py get_account_category). -/
  | ambiguousCategory (k1 k2 : CategoryKey)
  /-- KeyError of CategoryMap for a key outside the spec's domain. -/
  | unknownCategory (key : CategoryKey)
  /-- "Can't have negative held balance" (store.py AssignedAmounts). -/
  | negativeHeld
  /-- KeyError of `self.monthly_totals[month - 1]` when the predecessor
  record is absent (budget.py update_monthly_totals). -/
  | missingPreviousMonth
deriving DecidableEq

/-- Modelled from the spec: the class `CategoryMap` is imported from
`beanzero.budget.spec` by core.py and store.py and exercised by
test_spec.py, but its definition is absent from src/spec.py.  Spec §3: "a
mapping over the fixed domain of category keys defined by the spec,
defaulting unknown-but-valid keys to zero; accessing or assigning a key
outside the spec's domain fails."  Embedded as the fixed key list plus a
total value function (zero off the domain); the failing accesses are the
explicit `get`/`set` operations below. -/
structure CategoryMap where
  keys : List CategoryKey
  val : CategoryKey → Amount

/-- The values of the map, in key order (Python `dict.values()`). -/
def CategoryMap.values (m : CategoryMap) : List Amount :=
  m.keys.map m.val

/-- Reading `m[k]`: fails (KeyError, spec §4.5 `UnknownCategory`) for a key
outside the domain. -/
def CategoryMap.get (m : CategoryMap) (k : CategoryKey) : Except BudgetError Amount :=
  if m.keys.contains k then .ok (m.val k) else .error (.unknownCategory k)

/-- Writing `m[k] = v`: fails (KeyError, spec §4.5 `UnknownCategory`) for a
key outside the domain. -/
def CategoryMap.set (m : CategoryMap) (k : CategoryKey) (v : Amount) :
    Except BudgetError CategoryMap :=
  if m.keys.contains k then
    .ok ⟨m.keys, fun k' => if k' = k then v else m.val k'⟩
  else .error (.unknownCategory k)

/-- Source `m[k] = add(m[k], v)` for a key known to be in the domain (every source
use iterates keys drawn from the spec's own category list). -/
def CategoryMap.addAt (m : CategoryMap) (k : CategoryKey) (v : Amount) : CategoryMap :=
  ⟨m.keys, fun k' => if k' = k then m.val k' + v else m.val k'⟩

/-- spec.py `Category`: name, account collection, slug key (the key is
produced by `slugify(name)` at load time; it is carried as data here). -/
structure Category where
  name : String
  key : CategoryKey
  accounts : List Account

/-- spec.py `CategoryGroup`. -/
structure CategoryGroup where
  name : String
  categories : List Category

/-- spec.py `BudgetSpec` (the ledger/storage paths and their validators are
external I/O concerns, spec §1, and are omitted). -/
structure BudgetSpec where
  name : String
  currency : String
  start : Int
  accounts : List Account
  groups : List CategoryGroup

/-- The currency-specific zero amount, `spec.zero`. -/
def BudgetSpec.zero (_spec : BudgetSpec) : Amount := 0

/-- spec.py `all_category_keys`: `[c.key for g in self.groups for c in g.categories]`. -/
def BudgetSpec.all_category_keys (spec : BudgetSpec) : List CategoryKey :=
  (spec.groups.map fun g => g.categories.map Category.key).flatten

/-- Modelled from the spec (the method is absent from src/spec.py):
`spec.category_map()` builds the CategoryMap over the spec's key domain
with every value the currency zero. -/
def BudgetSpec.category_map (spec : BudgetSpec) : CategoryMap :=
  ⟨spec.all_category_keys, fun _ => 0⟩

/-- spec.py `is_budget_acccount` (source spelling): membership of the
account in the spec's budget account collection. -/
def BudgetSpec.is_budget_acccount (spec : BudgetSpec) (account : Account) : Bool :=
  spec.accounts.contains account

/-- spec.py `get_account_category`: scan every category of every group; at
most one may match the account, two matches raise the ambiguity error. -/
def BudgetSpec.get_account_category (spec : BudgetSpec) (account : Account) :
    Except BudgetError (Option CategoryKey) :=
  ((spec.groups.map CategoryGroup.categories).flatten).foldlM
    (fun found c =>
      if c.accounts.contains account then
        match found with
        | none => .ok (some c.key)
        | some k => .error (.ambiguousCategory k c.key)
      else .ok found)
    none

/-- One beancount posting: an account and an optional amount (`units`). -/
structure Posting where
  account : Account
  units : Option Amount

/-- One raw beancount transaction; `date` is an abstract day stamp (only
the postings matter to the classifier). -/
structure Transaction where
  date : Int
  postings : List Posting

/-- core.py `BudgetTransaction`: the budget-relevant data of one
transaction. -/
structure BudgetTransaction where
  date : Int
  flow : Amount
  spending : CategoryMap

/-- Source `reduce(amt.add, l, zero)`. -/
def sumAmounts (l : List Amount) : Amount :=
  l.foldl (· + ·) 0

/-- core.py `BudgetTransaction.total_spending`. -/
def BudgetTransaction.total_spending (t : BudgetTransaction) : Amount :=
  sumAmounts t.spending.values

/-- core.py `BudgetTransaction.funding = amt.sub(flow, total_spending)`. -/
def BudgetTransaction.funding (t : BudgetTransaction) : Amount :=
  t.flow - t.total_spending

/-- Step 1 of the classifier (core.py from_beancount_tx lines 48-56): scan
postings, and for each budget-account posting require units (else "Null
posting"), record the account and accumulate the flow. -/
def scanFlow (spec : BudgetSpec) :
    List Posting → List Account × Amount → Except BudgetError (List Account × Amount)
  | [], acc => .ok acc
  | p :: ps, (budget_accounts, flow) =>
    if spec.is_budget_acccount p.account then
      match p.units with
      | none => .error .nullPosting
      | some u => scanFlow spec ps (p.account :: budget_accounts, flow + u)
    else scanFlow spec ps (budget_accounts, flow)

/-- Step 3 of the classifier (core.py from_beancount_tx lines 63-74): for
each posting whose account classifies to a (truthy, hence nonempty)
category key, check the key against the recorded budget ACCOUNTS (the
source compares the category key, not the posting's account, against
`budget_accounts`), require units, and subtract them into the spending
map. -/
def scanSpending (spec : BudgetSpec) (budget_accounts : List Account) :
    List Posting → CategoryMap → Except BudgetError CategoryMap
  | [], spending => .ok spending
  | p :: ps, spending =>
    match spec.get_account_category p.account with
    | .error e => .error e
    | .ok none => scanSpending spec budget_accounts ps spending
    | .ok (some cat) =>
      if cat = "" then scanSpending spec budget_accounts ps spending
      else if budget_accounts.contains cat then .error (.budgetCategoryConflict cat)
      else
        match p.units with
        | none => .error .nullPosting
        | some u =>
          match spending.set cat (spending.val cat - u) with
          | .error e => .error e
          | .ok spending' => scanSpending spec budget_accounts ps spending'

/-- core.py `BudgetTransaction.from_beancount_tx` (identical to
budget.py `Budget.convert_transaction` save for the final negative-funding
check, which both revisions under test perform): classify one raw
transaction, returning `none` for budget-irrelevant ones. -/
def BudgetTransaction.from_beancount_tx (spec : BudgetSpec) (tx : Transaction) :
    Except BudgetError (Option BudgetTransaction) :=
  match scanFlow spec tx.postings ([], spec.zero) with
  | .error e => .error e
  | .ok (budget_accounts, flow) =>
    if flow = spec.zero then .ok none
    else
      match scanSpending spec budget_accounts tx.postings spec.category_map with
      | .error e => .error e
      | .ok spending =>
        let btx : BudgetTransaction := ⟨tx.date, flow, spending⟩
        if btx.funding < spec.zero then .error .negativeFunding
        else .ok (some btx)

/-- spec.py `Month`: a (month, year) pair whose validator rejects a month
field outside [1, 12] at construction. -/
structure Month where
  month : Int
  year : Int
deriving DecidableEq

/-- Construction through the attrs validator `check_month` (spec.py lines
27-30): `Month(m, y)` raises ValueError unless `1 <= m <= 12`. -/
def mkMonth (month year : Int) : Option Month :=
  if 1 ≤ month ∧ month ≤ 12 then some ⟨month, year⟩ else none

/-- spec.py `Month.__add__` (lines 46-52), faithful to the source: the
year/month adjustment runs only when `new_month > 12 or new_month < 0`
(Python `//` is `Int.fdiv` and `%` is `Int.emod` for the positive divisor),
and the result passes through the constructor's validator. -/
def Month.add (self : Month) (months : Int) : Option Month :=
  let new_month := self.month + months
  if new_month > 12 ∨ new_month < 0 then
    mkMonth (Int.emod new_month 12) (self.year + Int.fdiv new_month 12)
  else
    mkMonth new_month self.year

/-- spec.py `Month.__sub__` with an int argument: `self + (-other)`. -/
def Month.sub_int (self : Month) (other : Int) : Option Month :=
  self.add (-other)

/-- spec.py `Month.__sub__` with a Month argument:
`12 * (self.year - other.year) + self.month - other.month`. -/
def Month.sub_month (self other : Month) : Int :=
  12 * (self.year - other.year) + self.month - other.month

/-- spec.py `Month.__lt__`. -/
def Month.lt (self other : Month) : Prop :=
  self.year < other.year ∨ (self.year = other.year ∧ self.month < other.month)

/-- The numeric value of a decimal digit character. -/
def charVal (c : Char) : Nat := c.toNat - 48

/-- spec.py `Month.from_string` (lines 36-39):
`datetime.strptime(string, "%Y-%m")` — exactly four year digits, one or two
month digits whose value lies in [1, 12], and the datetime year range
[1, 9999]; the parsed pair then passes through the Month constructor. -/
def Month.from_string (s : String) : Option Month :=
  match s.data with
  | [y3, y2, y1, y0, dash, m1, m0] =>
    if dash = '-' ∧ y3.isDigit ∧ y2.isDigit ∧ y1.isDigit ∧ y0.isDigit
        ∧ m1.isDigit ∧ m0.isDigit then
      let y := 1000 * charVal y3 + 100 * charVal y2 + 10 * charVal y1 + charVal y0
      let mo := 10 * charVal m1 + charVal m0
      if 1 ≤ y ∧ y ≤ 9999 ∧ 1 ≤ mo ∧ mo ≤ 12 then mkMonth (mo : Int) (y : Int) else none
    else none
  | [y3, y2, y1, y0, dash, m0] =>
    if dash = '-' ∧ y3.isDigit ∧ y2.isDigit ∧ y1.isDigit ∧ y0.isDigit ∧ m0.isDigit then
      let y := 1000 * charVal y3 + 100 * charVal y2 + 10 * charVal y1 + charVal y0
      let mo := charVal m0
      if 1 ≤ y ∧ y ≤ 9999 ∧ 1 ≤ mo ∧ mo ≤ 12 then mkMonth (mo : Int) (y : Int) else none
    else none
  | _ => none

/-- Modelled from the spec: `Month.as_iso` is called by store.py (month
serialisation hook) and test_spec.py (`m.from_string(m.as_iso()) == m`) but
is absent from src/spec.py.  Spec §3/§6: the month's round-trip string form
is ISO `YYYY-MM` (four year digits, two month digits, zero padded). -/
def Month.as_iso (m : Month) : String :=
  let y := m.year.toNat
  let mo := m.month.toNat
  String.mk [Nat.digitChar (y / 1000 % 10), Nat.digitChar (y / 100 % 10),
             Nat.digitChar (y / 10 % 10), Nat.digitChar (y % 10), '-',
             Nat.digitChar (mo / 10 % 10), Nat.digitChar (mo % 10)]

/-- core.py `MonthlyTotals`: the stored per-month record; everything else
is a derived property. -/
structure MonthlyTotals where
  spec : BudgetSpec
  previous_tba : Amount
  previous_holding : Amount
  previous_overspending : Amount
  funding : Amount
  holding : Amount
  previous_carryover : CategoryMap
  spending : CategoryMap
  assigning : CategoryMap

/-- core.py `MonthlyTotals.aggregate_funding`:
`reduce(amt.add, map(attrgetter("funding"), txs), spec.zero)`. -/
def MonthlyTotals.aggregate_funding (_spec : BudgetSpec) (txs : List BudgetTransaction) :
    Amount :=
  sumAmounts (txs.map BudgetTransaction.funding)

/-- core.py `MonthlyTotals.aggregate_spending`: start from the zeroed
category map and add every transaction's per-category spending (the items
iterated are the transaction's own key/value pairs, all drawn from the
spec's domain). -/
def MonthlyTotals.aggregate_spending (spec : BudgetSpec) (txs : List BudgetTransaction) :
    CategoryMap :=
  txs.foldl
    (fun m tx => tx.spending.keys.foldl (fun m' k => m'.addAt k (tx.spending.val k)) m)
    spec.category_map

/-- core.py `MonthlyTotals.total_spending`. -/
def MonthlyTotals.total_spending (mt : MonthlyTotals) : Amount :=
  sumAmounts mt.spending.values

/-- core.py `MonthlyTotals.total_assigning`. -/
def MonthlyTotals.total_assigning (mt : MonthlyTotals) : Amount :=
  sumAmounts mt.assigning.values

/-- core.py `MonthlyTotals.category_balances`: a fresh category map where
every key of the spec's domain is set to
`previous_carryover[key] + spending[key] + assigning[key]` (keys outside
the loop keep the zero default). -/
def MonthlyTotals.category_balances (mt : MonthlyTotals) : CategoryMap :=
  ⟨mt.spec.all_category_keys,
   fun k =>
     if k ∈ mt.spec.all_category_keys then
       mt.previous_carryover.val k + mt.spending.val k + mt.assigning.val k
     else 0⟩

/-- core.py `MonthlyTotals.carryover_balances`: copy the balances and zero
every strictly negative entry (`if v.number and v.number < 0`; a zero value
is falsy and skipped, which leaves it unchanged). -/
def MonthlyTotals.carryover_balances (mt : MonthlyTotals) : CategoryMap :=
  let balances := mt.category_balances
  ⟨balances.keys, fun k => if balances.val k < 0 then 0 else balances.val k⟩

/-- core.py `MonthlyTotals.overspending`: the sum of the strictly negative
category balances. -/
def MonthlyTotals.overspending (mt : MonthlyTotals) : Amount :=
  sumAmounts (mt.category_balances.values.filter fun a => decide (a < 0))

/-- core.py `MonthlyTotals.to_be_assigned` (lines 185-193). -/
def MonthlyTotals.to_be_assigned (mt : MonthlyTotals) : Amount :=
  mt.previous_tba + mt.previous_holding + mt.previous_overspending + mt.funding
    - mt.total_assigning - mt.holding

/-- core.py `MonthlyTotals.from_transactions` (lines 121-150): seed the
first month with zeros, otherwise inherit `previous_tba`,
`previous_holding`, `previous_overspending` and the carryover map from the
previous month's computed record. -/
def MonthlyTotals.from_transactions (spec : BudgetSpec) (txs : List BudgetTransaction)
    (holding : Amount) (assigning : CategoryMap) (prev_month : Option MonthlyTotals) :
    MonthlyTotals :=
  match prev_month with
  | none =>
    ⟨spec, spec.zero, spec.zero, spec.zero, aggregate_funding spec txs, holding,
     spec.category_map, aggregate_spending spec txs, assigning⟩
  | some prev =>
    ⟨spec, prev.to_be_assigned, prev.holding, prev.overspending,
     aggregate_funding spec txs, holding, prev.carryover_balances,
     aggregate_spending spec txs, assigning⟩

/-- store.py `AssignedAmounts`: the mutable per-month input. -/
structure AssignedAmounts where
  held : Amount
  categories : CategoryMap

/-- budget.py `Budget`, restricted to the fields the recompute protocol
reads.  Months are indexed by their integer offset `12 * year + (month - 1)`
so that the chain's `month + 1` / `month - 1` steps are total (the slip in
`Month.__add__` at multiples of twelve is treated separately with the Month
theorems; the chain uses the intended successor and predecessor, as the
integration tests that cross a year boundary require).  The store's
`assigned` defaultdict is embedded as a total function whose default is the
empty `AssignedAmounts` (store.py `get_store_converter` default factory);
under this view `prune`, which deletes only default-valued months, is the
identity.  `latest_month` is the "latest relevant month" — in the source a
property mixing the clock (`Month.now`), the store keys and the ledger
months (spec §4.4 calls it an external policy); it is carried as state
here, fixed across one mutation as in the source. -/
structure Budget where
  spec : BudgetSpec
  monthly_transactions : Int → List BudgetTransaction
  ledger_start_month : Int
  latest_month : Int
  assigned : Int → AssignedAmounts
  monthly_totals : Int → Option MonthlyTotals

/-- The record the update loop stores for one month: budget.py
update_monthly_totals lines 285-299 — `from_transactions` of that month's
transactions, held amount and assigned categories, with no predecessor for
the ledger start month and the stored predecessor record otherwise. -/
def chainStep (b : Budget) (totals : Int → Option MonthlyTotals) (month : Int) :
    MonthlyTotals :=
  MonthlyTotals.from_transactions b.spec (b.monthly_transactions month)
    (b.assigned month).held (b.assigned month).categories
    (if month = b.ledger_start_month then none else totals (month - 1))

/-- The `while month <= self.latest_month` loop of budget.py
`update_monthly_totals`, with the iteration count made explicit as fuel
(chosen by the caller to cover the whole range).  Reading the predecessor
of a non-start month that has no stored record is the source's KeyError,
returned as `none`. -/
def updateLoop (b : Budget) (totals : Int → Option MonthlyTotals) (month : Int) :
    Nat → Option (Int → Option MonthlyTotals)
  | 0 => some totals
  | fuel + 1 =>
    if month ≤ b.latest_month then
      if month = b.ledger_start_month ∨ (totals (month - 1)).isSome then
        updateLoop b
          (fun i => if i = month then some (chainStep b totals month) else totals i)
          (month + 1) fuel
      else none
    else some totals

/-- budget.py `Budget.update_monthly_totals` (lines 282-300):
`month = from_month or self.ledger_start_month`, then recompute every month
from there through `latest_month` in increasing order. -/
def Budget.update_monthly_totals (b : Budget) (from_month : Option Int) :
    Except BudgetError Budget :=
  let month := from_month.getD b.ledger_start_month
  match updateLoop b b.monthly_totals month ((b.latest_month + 1 - month).toNat) with
  | none => .error .missingPreviousMonth
  | some totals => .ok { b with monthly_totals := totals }

/-- budget.py `Budget.update_assigned_amount` (lines 302-307): write the
amount into the store's `AssignedAmounts[month].categories[category]` (a
CategoryMap write, which fails for a key outside the spec's domain), then
recompute from that month; the final `save` is external store I/O whose
pruning of default months is invisible in the total-function view of the
store. -/
def Budget.update_assigned_amount (b : Budget) (month : Int) (category : CategoryKey)
    (amount : Amount) : Except BudgetError Budget :=
  match (b.assigned month).categories.set category amount with
  | .error e => .error e
  | .ok cats =>
    Budget.update_monthly_totals
      { b with
        assigned := fun i =>
          if i = month then ⟨(b.assigned month).held, cats⟩ else b.assigned i }
      (some month)

/-- Modelled from the spec: `set_held` / `update_held_amount` is called by
the tests (test_budget_integration.py) and the TUI but is absent from
src/budget.py.  Spec §4.5: validate `amount ≥ 0` (else fail `NegativeHeld`),
write `AssignedAmounts[month].held`, then recompute from that month. -/
def Budget.update_held_amount (b : Budget) (month : Int) (amount : Amount) :
    Except BudgetError Budget :=
  if amount < 0 then .error .negativeHeld
  else
    Budget.update_monthly_totals
      { b with
        assigned := fun i =>
          if i = month then ⟨amount, (b.assigned i).categories⟩ else b.assigned i }
      (some month)

/-! Helper lemmas. -/

lemma foldl_add_eq (l : List Amount) : ∀ c : Amount, l.foldl (· + ·) c = c + l.sum := by
  induction l with
  | nil => intro c; simp
  | cons a l ih => intro c; simp [List.foldl_cons, ih, List.sum_cons]; ring

lemma sumAmounts_eq_sum (l : List Amount) : sumAmounts l = l.sum := by
  simp [sumAmounts, foldl_add_eq]

/-- Splitting a sum into its clamped-at-zero part and its negative part. -/
lemma sum_clamp_split (l : List Amount) :
    l.sum = (l.map fun a => if a < 0 then (0 : Amount) else a).sum
      + ((l.filter fun a => decide (a < 0)).sum) := by
  induction l with
  | nil => simp
  | cons a l ih =>
    by_cases h : a < 0 <;>
      simp [List.filter_cons, h, List.sum_cons, ih] <;> ring

/-- Loop invariant of budget.py `update_monthly_totals`: a successful run
leaves every month before the start of the range untouched and stores, for
every month of the range it covered, the `from_transactions` record built
on the stored predecessor. -/
lemma updateLoop_spec (b : Budget) :
    ∀ (fuel : Nat) (totals : Int → Option MonthlyTotals) (month : Int)
      (t : Int → Option MonthlyTotals),
      updateLoop b totals month fuel = some t →
      (∀ i, i < month → t i = totals i) ∧
      (∀ i, month ≤ i → i ≤ b.latest_month → i < month + fuel →
        t i = some (chainStep b t i)) := by
  intro fuel
  induction fuel with
  | zero =>
    intro totals month t h
    simp only [updateLoop, Option.some.injEq] at h
    subst h
    exact ⟨fun i _ => rfl, fun i h1 _ h3 => absurd h3 (by omega)⟩
  | succ fuel ih =>
    intro totals month t h
    unfold updateLoop at h
    by_cases hle : month ≤ b.latest_month
    · rw [if_pos hle] at h
      by_cases hpre : month = b.ledger_start_month ∨ (totals (month - 1)).isSome
      · rw [if_pos hpre] at h
        obtain ⟨ih1, ih2⟩ := ih _ _ _ h
        constructor
        · intro i hi
          rw [ih1 i (by omega)]
          exact if_neg (by omega)
        · intro i hi1 hi2 hi3
          rcases eq_or_lt_of_le hi1 with heq | hlt
          · subst heq
            have hm : t month = some (chainStep b totals month) := by
              rw [ih1 month (by omega)]
              exact if_pos rfl
            have hprev : t (month - 1) = totals (month - 1) := by
              rw [ih1 (month - 1) (by omega)]
              exact if_neg (by omega)
            rw [hm]
            unfold chainStep
            by_cases hs : month = b.ledger_start_month
            · rw [if_pos hs, if_pos hs]
            · rw [if_neg hs, if_neg hs, hprev]
          · exact ih2 i (by omega) hi2 (by omega)
      · rw [if_neg hpre] at h
        cases h
    · rw [if_neg hle] at h
      have ht : totals = t := by
        simpa using h
      subst ht
      exact ⟨fun i _ => rfl, fun i h1 h2 _ => absurd h2 (by omega)⟩

/-- Characterisation of a successful `update_monthly_totals (some M)`: the
store and range are untouched, months before `M` keep their records, and
every month from `M` through `latest_month` holds the freshly built
`from_transactions` record. -/
lemma update_monthly_totals_spec (b : Budget) (M : Int) (b' : Budget)
    (h : b.update_monthly_totals (some M) = .ok b') :
    b'.spec = b.spec ∧ b'.assigned = b.assigned ∧ b'.latest_month = b.latest_month ∧
    b'.ledger_start_month = b.ledger_start_month ∧
    b'.monthly_transactions = b.monthly_transactions ∧
    (∀ i, i < M → b'.monthly_totals i = b.monthly_totals i) ∧
    (∀ i, M ≤ i → i ≤ b.latest_month →
      b'.monthly_totals i = some (chainStep b' b'.monthly_totals i)) := by
  unfold Budget.update_monthly_totals at h
  simp only [Option.getD_some] at h
  cases hl : updateLoop b b.monthly_totals M ((b.latest_month + 1 - M).toNat) with
  | none => rw [hl] at h; cases h
  | some t =>
    rw [hl] at h
    have hb : b' = { b with monthly_totals := t } := (Except.ok.inj h).symm
    subst hb
    obtain ⟨h1, h2⟩ := updateLoop_spec b _ _ _ _ hl
    refine ⟨rfl, rfl, rfl, rfl, rfl, h1, ?_⟩
    intro i hi1 hi2
    exact h2 i hi1 hi2 (by omega)

/-- A budget-account posting with null units always makes the first
classifier scan raise "Null posting". -/
lemma scanFlow_null (spec : BudgetSpec) :
    ∀ (l : List Posting) (bas : List Account) (flow : Amount),
      (∃ p ∈ l, spec.is_budget_acccount p.account = true ∧ p.units = none) →
      scanFlow spec l (bas, flow) = .error .nullPosting := by
  intro l
  induction l with
  | nil =>
    intro bas flow h
    obtain ⟨p, hp, _⟩ := h
    simp at hp
  | cons p ps ih =>
    intro bas flow h
    obtain ⟨q, hq, hqb, hqu⟩ := h
    unfold scanFlow
    by_cases hb : spec.is_budget_acccount p.account
    · rw [if_pos hb]
      cases hu : p.units with
      | none => rfl
      | some u =>
        rcases List.mem_cons.mp hq with rfl | hmem
        · rw [hu] at hqu; cases hqu
        · exact ih _ _ ⟨q, hmem, hqb, hqu⟩
    · rw [if_neg hb]
      rcases List.mem_cons.mp hq with rfl | hmem
      · rw [hqb] at hb; exact absurd rfl hb
      · exact ih _ _ ⟨q, hmem, hqb, hqu⟩

/-- If the second classifier scan succeeds, every posting that classifies
to a (truthy) category carried a non-null amount. -/
lemma scanSpending_ok_units (spec : BudgetSpec) (bas : List Account) :
    ∀ (l : List Posting) (m m' : CategoryMap),
      scanSpending spec bas l m = .ok m' →
      ∀ q ∈ l, ∀ c, spec.get_account_category q.account = .ok (some c) → c ≠ "" →
        q.units ≠ none := by
  intro l
  induction l with
  | nil =>
    intro m m' _ q hq
    simp at hq
  | cons p ps ih =>
    intro m m' h q hq c hc hcne
    unfold scanSpending at h
    cases hg : spec.get_account_category p.account with
    | error e => rw [hg] at h; cases h
    | ok oc =>
      rw [hg] at h
      cases oc with
      | none =>
        rcases List.mem_cons.mp hq with rfl | hmem
        · rw [hg] at hc; cases hc
        · exact ih _ _ h q hmem c hc hcne
      | some cat =>
        dsimp only at h
        by_cases he : cat = ""
        · rw [if_pos he] at h
          rcases List.mem_cons.mp hq with rfl | hmem
          · rw [hg] at hc
            have : cat = c := by
              have := Except.ok.inj hc
              exact Option.some.inj this
            exact absurd (this ▸ he) hcne
          · exact ih _ _ h q hmem c hc hcne
        · rw [if_neg he] at h
          by_cases hcon : bas.contains cat
          · rw [if_pos hcon] at h; cases h
          · rw [if_neg hcon] at h
            cases hu : p.units with
            | none => rw [hu] at h; cases h
            | some u =>
              rw [hu] at h
              dsimp only at h
              cases hset : m.set cat (m.val cat - u) with
              | error e => rw [hset] at h; cases h
              | ok m2 =>
                rw [hset] at h
                rcases List.mem_cons.mp hq with rfl | hmem
                · rw [hu]; exact fun hx => Option.noConfusion hx
                · exact ih _ _ h q hmem c hc hcne

/-- Decimal digit characters produced by `Nat.digitChar` are digits. -/
lemma digitChar_isDigit : ∀ d : Nat, d < 10 → (Nat.digitChar d).isDigit = true := by
  decide

/-- The map `charVal` inverts `Nat.digitChar` on decimal digits. -/
lemma charVal_digitChar : ∀ d : Nat, d < 10 → charVal (Nat.digitChar d) = d := by
  decide

/-- Parsing the zero-padded `YYYY-MM` digit string recovers the intended
year and month. -/
lemma from_string_digits (y mo : Nat) (hy1 : 1 ≤ y) (hy2 : y ≤ 9999)
    (hm1 : 1 ≤ mo) (hm2 : mo ≤ 12) :
    Month.from_string (String.mk
      [Nat.digitChar (y / 1000 % 10), Nat.digitChar (y / 100 % 10),
       Nat.digitChar (y / 10 % 10), Nat.digitChar (y % 10), '-',
       Nat.digitChar (mo / 10 % 10), Nat.digitChar (mo % 10)])
      = some ⟨(mo : Int), (y : Int)⟩ := by
  unfold Month.from_string
  dsimp only
  rw [if_pos ⟨rfl, digitChar_isDigit _ (by omega), digitChar_isDigit _ (by omega),
    digitChar_isDigit _ (by omega), digitChar_isDigit _ (by omega),
    digitChar_isDigit _ (by omega), digitChar_isDigit _ (by omega)⟩]
  rw [charVal_digitChar (y / 1000 % 10) (by omega), charVal_digitChar (y / 100 % 10) (by omega),
    charVal_digitChar (y / 10 % 10) (by omega), charVal_digitChar (y % 10) (by omega),
    charVal_digitChar (mo / 10 % 10) (by omega), charVal_digitChar (mo % 10) (by omega)]
  rw [if_pos ⟨by omega, by omega, by omega, by omega⟩]
  unfold mkMonth
  rw [if_pos ⟨by omega, by omega⟩]
  rw [Option.some.injEq]
  have hy : 1000 * (y / 1000 % 10) + 100 * (y / 100 % 10) + 10 * (y / 10 % 10) + y % 10
      = y := by omega
  have hm : 10 * (mo / 10 % 10) + mo % 10 = mo := by omega
  rw [hy, hm]

/-! Concrete inputs used by the witnesses and counterexamples. -/

/-- A small budget spec: one budget account and one category. -/
def specW : BudgetSpec :=
  { name := "w", currency := "AUD", start := 0,
    accounts := ["Assets:Checking"],
    groups := [⟨"g", [⟨"Rent", "rent", ["Expenses:Rent"]⟩]⟩] }

/-- A plain expense transaction (spec §8 scenario 1). -/
def txW : Transaction :=
  ⟨0, [⟨"Expenses:Rent", some 200⟩, ⟨"Assets:Checking", some (-200)⟩]⟩

/-- The classified form of `txW`. -/
def btxW : BudgetTransaction :=
  match BudgetTransaction.from_beancount_tx specW txW with
  | .ok (some b) => b
  | _ => ⟨0, 0, ⟨[], fun _ => 0⟩⟩

/-- A monthly record with an overspent category. -/
def mtW : MonthlyTotals :=
  ⟨specW, 0, 0, 0, 0, 0, specW.category_map, ⟨["rent"], fun _ => -5⟩, specW.category_map⟩

/-- A transaction whose only posting is category-relevant with null units
(and no budget flow at all). -/
def txC : Transaction := ⟨0, [⟨"Expenses:Rent", none⟩]⟩

/-- A transaction whose only posting is a budget account with null units. -/
def txBN : Transaction := ⟨0, [⟨"Assets:Checking", none⟩]⟩

/-- A spec in which one account is simultaneously a budget account and
mapped to a category. -/
def specB : BudgetSpec :=
  { name := "b", currency := "AUD", start := 0,
    accounts := ["Assets:Both"],
    groups := [⟨"g", [⟨"Both", "both", ["Assets:Both"]⟩]⟩] }

/-- A transaction posting through the double-role account of `specB`. -/
def txB : Transaction := ⟨0, [⟨"Assets:Both", some 100⟩]⟩

/-- The classified form of `txB` (which the specification says must not
exist). -/
def btxB : BudgetTransaction :=
  match BudgetTransaction.from_beancount_tx specB txB with
  | .ok (some b) => b
  | _ => ⟨0, 0, ⟨[], fun _ => 0⟩⟩

/-- A small budget state: empty ledger and store, two months in range. -/
def bW : Budget :=
  { spec := specW, monthly_transactions := fun _ => [],
    ledger_start_month := 0, latest_month := 1,
    assigned := fun _ => ⟨0, specW.category_map⟩,
    monthly_totals := fun _ => none }

/-- State `bW` after assigning 5 to "rent" in month 0. -/
def bW1 : Budget :=
  match bW.update_assigned_amount 0 "rent" 5 with
  | .ok s => s
  | .error _ => bW

/-- State `bW` after holding 3 in month 0. -/
def bW2 : Budget :=
  match bW.update_held_amount 0 3 with
  | .ok s => s
  | .error _ => bW

/-! The claims. -/

/-- Claim C1: for every MonthlyTotals record, `to_be_assigned` equals
`previous_tba + previous_holding + previous_overspending + funding −
total_assigning − holding`; and a record built by `from_transactions` on
top of a previous month `M` inherits `previous_tba = M.to_be_assigned`,
`previous_holding = M.holding` and
`previous_overspending = M.overspending`. -/
theorem C1_tba_recursion_and_inheritance (mt : MonthlyTotals) (spec : BudgetSpec)
    (txs : List BudgetTransaction) (holding : Amount) (assigning : CategoryMap)
    (M : MonthlyTotals) :
    mt.to_be_assigned
      = mt.previous_tba + mt.previous_holding + mt.previous_overspending + mt.funding
        - mt.total_assigning - mt.holding ∧
    (MonthlyTotals.from_transactions spec txs holding assigning (some M)).previous_tba
      = M.to_be_assigned ∧
    (MonthlyTotals.from_transactions spec txs holding assigning (some M)).previous_holding
      = M.holding ∧
    (MonthlyTotals.from_transactions spec txs holding assigning
        (some M)).previous_overspending
      = M.overspending :=
  ⟨rfl, rfl, rfl, rfl⟩

/-- Claim C2: every transaction the classifier accepts satisfies the
conservation equation `funding + total_spending = flow` exactly. -/
theorem C2_conservation (spec : BudgetSpec) (tx : Transaction) (btx : BudgetTransaction)
    (h : BudgetTransaction.from_beancount_tx spec tx = .ok (some btx)) :
    btx.funding + btx.total_spending = btx.flow := by
  unfold BudgetTransaction.funding
  ring

/-- Witness for C2 at a concrete accepted transaction. -/
theorem C2_conservation_witness :
    BudgetTransaction.from_beancount_tx specW txW = .ok (some btxW) ∧
    btxW.funding + btxW.total_spending = btxW.flow :=
  ⟨rfl, C2_conservation specW txW btxW rfl⟩

/-- Claim C4: per-category carryover is the category balance clamped at
zero, so it is never negative and a negative balance does not carry
forward. -/
theorem C4_carryover_clamp (mt : MonthlyTotals) (k : CategoryKey)
    (hk : k ∈ mt.spec.all_category_keys) :
    0 ≤ mt.carryover_balances.val k ∧
    (0 ≤ mt.category_balances.val k →
      mt.carryover_balances.val k = mt.category_balances.val k) ∧
    (mt.category_balances.val k < 0 → mt.carryover_balances.val k = 0) := by
  have hval : mt.carryover_balances.val k
      = if mt.category_balances.val k < 0 then 0 else mt.category_balances.val k := rfl
  rw [hval]
  by_cases h : mt.category_balances.val k < 0
  · rw [if_pos h]
    exact ⟨le_refl 0, fun h0 => absurd h (not_lt.mpr h0), fun _ => rfl⟩
  · rw [if_neg h]
    exact ⟨le_of_not_lt h, fun _ => rfl, fun hl => absurd hl h⟩

/-- Witness for C4 at a record with an overspent category. -/
theorem C4_carryover_clamp_witness :
    "rent" ∈ mtW.spec.all_category_keys ∧
    mtW.category_balances.val "rent" < 0 ∧
    0 ≤ mtW.carryover_balances.val "rent" ∧
    mtW.carryover_balances.val "rent" = 0 := by
  have h := C4_carryover_clamp mtW "rent" (by decide)
  exact ⟨by decide, by decide, h.1, h.2.2 (by decide)⟩

/-- Claim C5 (code bug): the conflict guard in the classifier compares the
CATEGORY KEY against the set of budget ACCOUNT names, so an account that
is both a budget account and mapped to a category is not rejected — the
transaction classifies successfully with the posting counted in both the
flow and the category spending, contradicting the source's own error
message ("Account ... cannot be budget account and budget category"). -/
theorem C5_conflict_check_never_fires :
    specB.is_budget_acccount "Assets:Both" = true ∧
    specB.get_account_category "Assets:Both" = .ok (some "both") ∧
    BudgetTransaction.from_beancount_tx specB txB = .ok (some btxB) ∧
    btxB.flow = 100 ∧
    btxB.spending.val "both" = -100 ∧
    btxB.funding = 200 :=
  ⟨rfl, rfl, rfl, by decide, by decide, by decide⟩

/-- Claim C8 (code bug): `Month.__add__` only renormalises when the raw
sum is `> 12` or `< 0`, so a sum of exactly 0 reaches the constructor
validator and raises — `Month(1, 2000) + (-1)` (i.e. `Month(1, 2000) - 1`)
crashes instead of producing `Month(12, 1999)` as `test_month_subtracting_int`
expects. -/
theorem C8_month_add_crashes :
    Month.add ⟨1, 2000⟩ (-1) = none ∧
    Month.sub_int ⟨1, 2000⟩ 1 = none ∧
    (none : Option Month) ≠ some ⟨12, 1999⟩ := by
  refine ⟨by decide, by decide, by decide⟩

/-- Claim C10: zeroing negative balances into carryover and summing them
into overspending re-partitions the category balances exactly:
`Σ category_balances = Σ carryover_balances + overspending`. -/
theorem C10_balance_partition (mt : MonthlyTotals) :
    sumAmounts mt.category_balances.values
      = sumAmounts mt.carryover_balances.values + mt.overspending := by
  unfold MonthlyTotals.overspending
  rw [sumAmounts_eq_sum, sumAmounts_eq_sum, sumAmounts_eq_sum]
  have hv : mt.carryover_balances.values
      = mt.category_balances.values.map fun a => if a < 0 then (0 : Amount) else a := by
    show mt.category_balances.keys.map _ = _
    rw [CategoryMap.values, List.map_map]
    rfl
  rw [hv]
  exact sum_clamp_split mt.category_balances.values

/-- Claim C3: after `set_assigned` (update_assigned_amount) or `set_held`
at month M returns, every MonthlyTotals record from M through the latest
relevant month is freshly recomputed from the updated store (each month's
record is the `from_transactions` chain step over the new inputs), and no
record for a month strictly before M changes. -/
theorem C3_mutation_locality_and_recompute (b : Budget) (M : Int) (c : CategoryKey)
    (a q : Amount) (b1 b2 : Budget) :
    (b.update_assigned_amount M c a = .ok b1 →
      (∀ i, i < M → b1.monthly_totals i = b.monthly_totals i) ∧
      (∀ i, M ≤ i → i ≤ b.latest_month →
        b1.monthly_totals i = some (chainStep b1 b1.monthly_totals i)) ∧
      (b1.assigned M).categories.val c = a ∧
      (∀ i, i ≠ M → b1.assigned i = b.assigned i)) ∧
    (b.update_held_amount M q = .ok b2 →
      (∀ i, i < M → b2.monthly_totals i = b.monthly_totals i) ∧
      (∀ i, M ≤ i → i ≤ b.latest_month →
        b2.monthly_totals i = some (chainStep b2 b2.monthly_totals i)) ∧
      (b2.assigned M).held = q ∧
      (∀ i, i ≠ M → b2.assigned i = b.assigned i)) := by
  constructor
  · intro h
    unfold Budget.update_assigned_amount at h
    cases hset : (b.assigned M).categories.set c a with
    | error e => rw [hset] at h; cases h
    | ok cats =>
      rw [hset] at h
      dsimp only at h
      obtain ⟨-, h2, -, -, -, h6, h7⟩ := update_monthly_totals_spec _ M b1 h
      refine ⟨fun i hi => h6 i hi, fun i hi1 hi2 => h7 i hi1 hi2, ?_, ?_⟩
      · rw [h2]
        show (if M = M then (⟨(b.assigned M).held, cats⟩ : AssignedAmounts)
              else b.assigned M).categories.val c = a
        rw [if_pos rfl]
        unfold CategoryMap.set at hset
        by_cases hc : (b.assigned M).categories.keys.contains c
        · rw [if_pos hc] at hset
          have : cats = ⟨(b.assigned M).categories.keys,
              fun k' => if k' = c then a else (b.assigned M).categories.val k'⟩ :=
            (Except.ok.inj hset).symm
          rw [this]
          show (if c = c then a else (b.assigned M).categories.val c) = a
          rw [if_pos rfl]
        · rw [if_neg hc] at hset; cases hset
      · intro i hi
        rw [h2]
        show (if i = M then (⟨(b.assigned M).held, cats⟩ : AssignedAmounts)
              else b.assigned i) = b.assigned i
        rw [if_neg hi]
  · intro h
    unfold Budget.update_held_amount at h
    by_cases hq : q < 0
    · rw [if_pos hq] at h; cases h
    · rw [if_neg hq] at h
      obtain ⟨-, h2, -, -, -, h6, h7⟩ := update_monthly_totals_spec _ M b2 h
      refine ⟨fun i hi => h6 i hi, fun i hi1 hi2 => h7 i hi1 hi2, ?_, ?_⟩
      · rw [h2]
        show (if M = M then (⟨q, (b.assigned M).categories⟩ : AssignedAmounts)
              else b.assigned M).held = q
        rw [if_pos rfl]
      · intro i hi
        rw [h2]
        show (if i = M then (⟨q, (b.assigned i).categories⟩ : AssignedAmounts)
              else b.assigned i) = b.assigned i
        rw [if_neg hi]

/-- Witness for C3 at a concrete two-month budget state. -/
theorem C3_mutation_locality_and_recompute_witness :
    bW1.monthly_totals (-1) = bW.monthly_totals (-1) ∧
    bW1.monthly_totals 1 = some (chainStep bW1 bW1.monthly_totals 1) ∧
    (bW1.assigned 0).categories.val "rent" = 5 ∧
    bW2.monthly_totals 0 = some (chainStep bW2 bW2.monthly_totals 0) ∧
    (bW2.assigned 0).held = 3 := by
  obtain ⟨hA, hB⟩ := C3_mutation_locality_and_recompute bW 0 "rent" 5 3 bW1 bW2
  obtain ⟨l1, r1, v1, -⟩ := hA rfl
  obtain ⟨-, r2, v2, -⟩ := hB rfl
  exact ⟨l1 (-1) (by decide), r1 1 (by decide) (by decide), v1,
    r2 0 (by decide) (by decide), v2⟩

/-- Claim C6: in a store whose per-month category map covers the spec's
key domain, `set_assigned` with a key outside the domain fails with the
`UnknownCategory` error before any state is produced; with an in-domain
key it writes the amount into `AssignedAmounts[month].categories` and then
recomputes from that month forward. -/
theorem C6_set_assigned_domain_check (b : Budget) (M : Int) (c : CategoryKey) (a : Amount)
    (hkeys : ((b.assigned M).categories).keys = b.spec.all_category_keys) :
    (c ∉ b.spec.all_category_keys →
      b.update_assigned_amount M c a = .error (.unknownCategory c)) ∧
    (c ∈ b.spec.all_category_keys →
      b.update_assigned_amount M c a =
        Budget.update_monthly_totals
          { b with
            assigned := fun i =>
              if i = M then
                ⟨(b.assigned M).held,
                 ⟨((b.assigned M).categories).keys,
                  fun k => if k = c then a else ((b.assigned M).categories).val k⟩⟩
              else b.assigned i }
          (some M)) := by
  constructor
  · intro hc
    unfold Budget.update_assigned_amount CategoryMap.set
    rw [hkeys, if_neg (by simpa using hc)]
  · intro hc
    unfold Budget.update_assigned_amount CategoryMap.set
    rw [hkeys, if_pos (by simpa using hc)]

/-- Witness for C6: an out-of-domain key is rejected, an in-domain key is
written and recomputed, at a concrete state. -/
theorem C6_set_assigned_domain_check_witness :
    bW.update_assigned_amount 0 "nope" 5 = .error (.unknownCategory "nope") ∧
    bW.update_assigned_amount 0 "rent" 5 =
      Budget.update_monthly_totals
        { bW with
          assigned := fun i =>
            if i = 0 then
              ⟨(bW.assigned 0).held,
               ⟨((bW.assigned 0).categories).keys,
                fun k => if k = "rent" then 5 else ((bW.assigned 0).categories).val k⟩⟩
            else bW.assigned i }
        (some 0) :=
  ⟨(C6_set_assigned_domain_check bW 0 "nope" 5 rfl).1 (by decide),
   (C6_set_assigned_domain_check bW 0 "rent" 5 rfl).2 (by decide)⟩

/-- Counterexample to claim C7 as stated: a transaction whose only posting
classifies to a category and carries no amount, but whose net budget flow
is zero, is discarded as `None` at step 2 — the category scan (and its
null check) is never reached, so classification does NOT fail with
NullPosting. -/
theorem C7_claim_counterexample :
    specW.get_account_category "Expenses:Rent" = .ok (some "rent") ∧
    txC.postings = [⟨"Expenses:Rent", none⟩] ∧
    BudgetTransaction.from_beancount_tx specW txC = .ok none :=
  ⟨rfl, rfl, rfl⟩

/-- Claim C7 as amended: a null amount on a budget-account posting always
fails classification with NullPosting; a null amount on a
category-classified posting can only escape the NullPosting error when the
transaction's net budget flow is zero, in which case the transaction is
discarded (`None`) before the category scan. -/
theorem C7_null_posting_scope (spec : BudgetSpec) (tx : Transaction) :
    ((∃ p ∈ tx.postings, spec.is_budget_acccount p.account = true ∧ p.units = none) →
      BudgetTransaction.from_beancount_tx spec tx = .error .nullPosting) ∧
    (∀ (r : Option BudgetTransaction) (p : Posting) (c : CategoryKey),
      BudgetTransaction.from_beancount_tx spec tx = .ok r →
      p ∈ tx.postings → spec.get_account_category p.account = .ok (some c) → c ≠ "" →
      p.units = none → r = none) := by
  constructor
  · intro h
    unfold BudgetTransaction.from_beancount_tx
    rw [scanFlow_null spec tx.postings [] spec.zero h]
  · intro r p c hok hp hg hc hu
    unfold BudgetTransaction.from_beancount_tx at hok
    cases hf : scanFlow spec tx.postings ([], spec.zero) with
    | error e => rw [hf] at hok; cases hok
    | ok pr =>
      rw [hf] at hok
      obtain ⟨bas, flow⟩ := pr
      dsimp only at hok
      by_cases hz : flow = spec.zero
      · rw [if_pos hz] at hok
        exact (Except.ok.inj hok).symm
      · rw [if_neg hz] at hok
        cases hs : scanSpending spec bas tx.postings spec.category_map with
        | error e => rw [hs] at hok; cases hok
        | ok sp =>
          exact absurd hu (scanSpending_ok_units spec bas tx.postings _ _ hs p hp c hg hc)

/-- Witness for the amended C7: a null budget-account posting fails with
NullPosting, and the only way a null category posting survives is the
zero-flow discard. -/
theorem C7_null_posting_scope_witness :
    BudgetTransaction.from_beancount_tx specW txBN = .error .nullPosting ∧
    (none : Option BudgetTransaction) = none :=
  ⟨(C7_null_posting_scope specW txBN).1
     ⟨⟨"Assets:Checking", none⟩, List.mem_singleton.mpr rfl, by decide, rfl⟩,
   (C7_null_posting_scope specW txC).2 none ⟨"Expenses:Rent", none⟩ "rent" rfl
     (List.mem_singleton.mpr rfl) rfl (by decide) rfl⟩

/-- Claim C9: rendering a valid Month to the ISO `YYYY-MM` form and parsing
it back with `Month.from_string` yields the same month (for the year range
the datetime machinery admits). -/
theorem C9_iso_roundtrip (m : Month) (h1 : 1 ≤ m.month) (h2 : m.month ≤ 12)
    (h3 : 1 ≤ m.year) (h4 : m.year ≤ 9999) :
    Month.from_string m.as_iso = some m := by
  have h := from_string_digits m.year.toNat m.month.toNat (by omega) (by omega)
    (by omega) (by omega)
  unfold Month.as_iso
  dsimp only
  rw [h]
  have hmm : ((m.month.toNat : Int)) = m.month := Int.toNat_of_nonneg (by omega)
  have hyy : ((m.year.toNat : Int)) = m.year := Int.toNat_of_nonneg (by omega)
  rw [Option.some.injEq]
  exact congrArg₂ Month.mk hmm hyy

/-- Witness for C9 at December 1999. -/
theorem C9_iso_roundtrip_witness :
    1 ≤ (Month.mk 12 1999).month ∧ (Month.mk 12 1999).month ≤ 12 ∧
    1 ≤ (Month.mk 12 1999).year ∧ (Month.mk 12 1999).year ≤ 9999 ∧
    Month.from_string (Month.as_iso ⟨12, 1999⟩) = some ⟨12, 1999⟩ :=
  ⟨by decide, by decide, by decide, by decide,
   C9_iso_roundtrip ⟨12, 1999⟩ (by decide) (by decide) (by decide) (by decide)⟩

end Beanzero
